import Mathlib

/-!
Verification of the streaming transaction generator and fan-out writer
(`backend/demo.py`) and its dashboard consumer (`backend/dashboard.py`).

The embedding models:
* IEEE-754 binary64 arithmetic (round to nearest, ties to even, 53-bit
  significand) over exact fractions, used by `amount = float(row['amount'])`
  and `int(amount * 100)` in the stream loop;
* the reservoir-sampling data load (demo.py lines 227-254);
* the per-event fan-out into the seven destination tables
  (demo.py lines 305-348), with a per-destination failure oracle standing
  for exceptions raised by `session.execute`;
* the stream loop's control flow (`try ... except KeyboardInterrupt`,
  demo.py lines 293-392);
* `clean_merchant`, `get_hour_bucket` (demo.py lines 257-264) and the
  dashboard's `current_hour` (dashboard.py line 502).

Exact fractions are represented unnormalised (`Dec`, an integer numerator
over a natural denominator) so that every arithmetic step is plain integer
arithmetic and evaluates inside the kernel.
-/

/-- An exact (unnormalised) fraction `n / d`; the model of a decimal field
of the source CSV (a decimal string with `k` fraction digits denotes
`n / 10^k`) and of every intermediate value of the double pipeline.
`d` is positive for every value actually constructed. -/
structure Dec where
  n : ℤ
  d : ℕ
deriving DecidableEq

/-- The rational value denoted by a fraction. -/
def Dec.toRat (a : Dec) : ℚ := (a.n : ℚ) / (a.d : ℚ)

/-- Floor of the fraction, computed on the representation (floor division;
the denominator is positive for all constructed values). -/
def Dec.floorD (a : Dec) : ℤ := Int.fdiv a.n (a.d : ℤ)

/-- Round the fraction to the nearest integer, ties to even
(the IEEE-754 default rounding of a real significand). -/
def rne (a : Dec) : ℤ :=
  let f : ℤ := a.floorD
  let r : ℤ := a.n - f * (a.d : ℤ)
  if 2 * r < (a.d : ℤ) then f
  else if 2 * r = (a.d : ℤ) then (if f % 2 = 0 then f else f + 1)
  else f + 1

/-- Scale a positive fraction into `[1, 2)` by powers of two, returning the
mantissa and the binary exponent.  Fuel-bounded; 6000 steps cover far more
than the binary64 exponent range, so on every double-range input the
normalisation terminates by reaching `[1, 2)`. -/
def norm53 : ℕ → Dec → ℤ → Dec × ℤ
  | 0, a, e => (a, e)
  | fuel + 1, a, e =>
    if a.n < (a.d : ℤ) then norm53 fuel ⟨2 * a.n, a.d⟩ (e - 1)
    else if 2 * (a.d : ℤ) ≤ a.n then norm53 fuel ⟨a.n, 2 * a.d⟩ (e + 1)
    else (a, e)

/-- Correctly rounded conversion of a positive fraction to the binary64
value nearest to it (normal range): normalise to mantissa `m ∈ [1, 2)`,
round `m * 2^52` to the nearest integer (ties to even), reattach the
exponent.  `4503599627370496 = 2^52`. -/
def rnd53pos (a : Dec) : Dec :=
  let p := norm53 6000 a 0
  let m : ℤ := rne ⟨p.1.n * 4503599627370496, p.1.d⟩
  if 0 ≤ p.2 then ⟨m * 2 ^ p.2.toNat, 4503599627370496⟩
  else ⟨m, 4503599627370496 * 2 ^ (-p.2).toNat⟩

/-- The binary64 double nearest to the exact value `a`.  Models both
Python's `float(decimal_string)` (correctly rounded decimal-to-double
conversion) and the rounding step of every double arithmetic operation. -/
def rnd53 (a : Dec) : Dec :=
  if a.n = 0 then ⟨0, 1⟩
  else if a.n < 0 then
    let r := rnd53pos ⟨-a.n, a.d⟩
    ⟨-r.n, r.d⟩
  else rnd53pos a

/-- Binary64 multiplication: exact product, then one rounding. -/
def dmul (a b : Dec) : Dec := rnd53 ⟨a.n * b.n, a.d * b.d⟩

/-- Python's `int()` on a float: truncation toward zero. -/
def truncInt (a : Dec) : ℤ :=
  if 0 ≤ a.n then a.floorD else -(Dec.floorD ⟨-a.n, a.d⟩)

/-- The counter increment the stream loop computes for a source row whose
`amount` column denotes the decimal value `a`:
`int(amount * 100)` with `amount = float(row['amount'])`
(demo.py lines 299, 326, 333, 340, 347). -/
def cents_of_amount (a : Dec) : ℤ := truncInt (dmul (rnd53 a) ⟨100, 1⟩)

/-- The exact value of the amount in minor units (cents), as a rational:
what the specification calls "the exact sum ... expressed in integer minor
units". -/
def exact_minor_units (a : Dec) : ℚ := a.toRat * 100

/-- The fixed demo identity (demo.py line 21). -/
def DEMO_USER_ID : String := "User_1"

/-- One template row of the source CSV: the fields the stream loop reads
(demo.py lines 299-302).  The `amount` column is kept as the exact decimal
value the string denotes; `float()` is applied by the loop body. -/
structure Row where
  amount : Dec
  category : String
  merchant : String
  payment_method : String
deriving DecidableEq

/-- demo.py lines 257-258: `merchant[6:] if merchant.startswith("fraud_")
else merchant` (six characters are dropped).  `startswith` is expressed as
the character-list test `"fraud_".data.isPrefixOf merchant.data`. -/
def clean_merchant (merchant : String) : String :=
  if "fraud_".data.isPrefixOf merchant.data then merchant.drop 6 else merchant

/-- Startup failures the generator can report.  The code only ever reports
a missing source file (demo.py lines 227-229, `exit(1)`); it has no
empty-source check. -/
inductive StartupError
  | SourceNotFound
deriving DecidableEq

/-- One step of the reservoir-sampling branch (demo.py lines 244-250): the
row at 0-based position `i` is appended while `i < cap`; afterwards
`j = random.randint(0, i)` overwrites slot `j` when `j < cap` and the row
is discarded otherwise.  `randint i` is the oracle for the draw at `i`. -/
def reservoirStep (cap : ℕ) (randint : ℕ → ℕ) (acc : List Row) (i : ℕ) (row : Row) :
    List Row :=
  if i < cap then acc ++ [row]
  else if randint i < cap then acc.set (randint i) row
  else acc

/-- The reservoir-sampling loop over the remaining rows, carrying the
0-based position of the next row. -/
def reservoirAux (cap : ℕ) (randint : ℕ → ℕ) : ℕ → List Row → List Row → List Row
  | _, acc, [] => acc
  | i, acc, r :: rs => reservoirAux cap randint (i + 1) (reservoirStep cap randint acc i r) rs

/-- The data load (demo.py lines 238-252): `total_rows > MAX_ROWS_IN_MEMORY`
selects the sampling branch, otherwise `list(reader)` keeps every row. -/
def loadSample (cap : ℕ) (randint : ℕ → ℕ) (rows : List Row) : List Row :=
  if rows.length > cap then reservoirAux cap randint 0 [] rows else rows

/-- Step 5 of demo.py (lines 225-254): abort with a startup error when the
file is missing, otherwise load (possibly sampling).  The result may be
empty: nothing checks for an empty source. -/
def loadData (fileExists : Bool) (cap : ℕ) (randint : ℕ → ℕ) (rows : List Row) :
    Except StartupError (List Row) :=
  if fileExists then .ok (loadSample cap randint rows) else .error .SourceNotFound

/-- Model of `random.choice(all_transactions)` (demo.py line 295): `pick` abstracts
the random index; `none` models the `IndexError` Python raises when the
sequence is empty. -/
def randomChoice (l : List Row) (pick : ℕ) : Option Row := l[pick % l.length]?

/-- A Python `datetime` value: the fields that `strftime('%Y-%m-%d-%H')`
and chronological comparison depend on. -/
structure PyDateTime where
  year : ℕ
  month : ℕ
  day : ℕ
  hour : ℕ
  minute : ℕ
  second : ℕ
  microsecond : ℕ
deriving DecidableEq

/-- The field ranges Python's `datetime` enforces on construction. -/
def PyDateTime.Valid (t : PyDateTime) : Prop :=
  1 ≤ t.year ∧ t.year ≤ 9999 ∧ 1 ≤ t.month ∧ t.month ≤ 12 ∧
  1 ≤ t.day ∧ t.day ≤ 31 ∧ t.hour ≤ 23 ∧ t.minute ≤ 59 ∧
  t.second ≤ 59 ∧ t.microsecond ≤ 999999

instance (t : PyDateTime) : Decidable t.Valid := by
  unfold PyDateTime.Valid; infer_instance

/-- Mixed-radix encoding of a datetime: for valid datetimes,
`dtKey t1 ≤ dtKey t2` holds exactly when `t1` is chronologically no later
than `t2` (Python compares datetimes field-lexicographically, and every
radix strictly bounds its field). -/
def dtKey (t : PyDateTime) : ℕ :=
  (((((t.year * 13 + t.month) * 32 + t.day) * 24 + t.hour) * 60 + t.minute) * 60
      + t.second) * 1000000 + t.microsecond

/-- The same encoding truncated to the hour: the value `%Y-%m-%d-%H`
depends on. -/
def hourKey (t : PyDateTime) : ℕ :=
  ((t.year * 13 + t.month) * 32 + t.day) * 24 + t.hour

/-- The character of one decimal digit. -/
def digitChar (k : ℕ) : Char := Char.ofNat (48 + k)

/-- A two-digit zero-padded decimal field (`%m`, `%d`, `%H`). -/
def pad2 (k : ℕ) : List Char := [digitChar (k / 10), digitChar (k % 10)]

/-- A four-digit zero-padded decimal field (`%Y`; Python documents `%Y` as
zero-padded: `0001, ..., 9999`). -/
def pad4 (k : ℕ) : List Char := pad2 (k / 100) ++ pad2 (k % 100)

/-- The character list of `dt.strftime('%Y-%m-%d-%H')`. -/
def labelChars (t : PyDateTime) : List Char :=
  pad4 t.year ++ '-' :: (pad2 t.month ++ '-' :: (pad2 t.day ++ '-' :: pad2 t.hour))

/-- Model of `dt.strftime('%Y-%m-%d-%H')`. -/
def strftimeYmdH (t : PyDateTime) : String :=
  String.mk (labelChars t)

/-- demo.py lines 263-264. -/
def get_hour_bucket (t : PyDateTime) : String := strftimeYmdH t

/-- dashboard.py line 502:
`current_hour = datetime.now().strftime('%Y-%m-%d-%H')`, as a function of
the polling-time datetime. -/
def dashboard_current_hour (now : PyDateTime) : String := strftimeYmdH now

/-- A row of `transactions_by_user` (table 1, demo.py lines 105-116). -/
structure TxnByUserRow where
  user_id : String
  transaction_time : PyDateTime
  transaction_id : ℕ
  amount : Dec
  category : String
  merchant : String
  payment_method : String
deriving DecidableEq

/-- A row of `transactions_by_category` (table 2, demo.py lines 122-132). -/
structure TxnByCategoryRow where
  user_id : String
  category : String
  transaction_time : PyDateTime
  transaction_id : ℕ
  amount : Dec
  merchant : String
deriving DecidableEq

/-- A row of `hourly_transactions` (table 5, demo.py lines 162-173). -/
structure HourlyRow where
  hour_bucket : String
  transaction_time : PyDateTime
  transaction_id : ℕ
  user_id : String
  amount : Dec
  category : String
deriving DecidableEq

/-- One row of a counter table: the two Cassandra counter columns. -/
structure CounterRow where
  total_amount : ℤ
  transaction_count : ℤ
deriving DecidableEq

/-- A counter table keyed by `κ`; a key never written holds the zero
counters (a Cassandra counter update on an absent row starts from zero). -/
def CounterTable (κ : Type) := κ → CounterRow

/-- Counter update `UPDATE ... SET total_amount = total_amount + inc,
transaction_count = transaction_count + 1 WHERE key = k`
(demo.py lines 323-348). -/
def bumpCounter {κ : Type} [DecidableEq κ] (tbl : CounterTable κ) (k : κ) (inc : ℤ) :
    CounterTable κ :=
  fun k2 =>
    if k2 = k then ⟨(tbl k2).total_amount + inc, (tbl k2).transaction_count + 1⟩ else tbl k2

/-- The seven destination tables, freshly created at startup
(demo.py lines 89-195). -/
structure DBState where
  transactions_by_user : List TxnByUserRow
  transactions_by_category : List TxnByCategoryRow
  hourly_transactions : List HourlyRow
  spending_by_category : CounterTable String
  spending_by_user_category : CounterTable (String × String)
  merchant_statistics : CounterTable String
  payment_method_stats : CounterTable String

/-- The state right after table creation: all tables empty. -/
def emptyDB : DBState :=
  ⟨[], [], [], fun _ => ⟨0, 0⟩, fun _ => ⟨0, 0⟩, fun _ => ⟨0, 0⟩, fun _ => ⟨0, 0⟩⟩

/-- The seven destination writes of one fan-out, in program order
(demo.py lines 305-348). -/
inductive Dest
  | txnByUser
  | txnByCategory
  | hourly
  | catCounter
  | userCatCounter
  | merchantCounter
  | payCounter
deriving DecidableEq

/-- The order in which the loop body issues the seven writes. -/
def destOrder : List Dest :=
  [.txnByUser, .txnByCategory, .hourly, .catCounter, .userCatCounter,
   .merchantCounter, .payCounter]

/-- One destination write of the loop body (demo.py lines 297-348), with
the locals the body binds: `amount = float(row['amount'])`,
`merchant = clean_merchant(row['merchant'])`,
`hour_bucket = get_hour_bucket(txn_time)`, and counter increments
`int(amount * 100)`. -/
def applyWrite (row : Row) (txn_time : PyDateTime) (txn_id : ℕ) (db : DBState) :
    Dest → DBState :=
  let amount := rnd53 row.amount
  let category := row.category
  let merchant := clean_merchant row.merchant
  let payment_method := row.payment_method
  let hour_bucket := get_hour_bucket txn_time
  let cents := cents_of_amount row.amount
  fun d =>
    match d with
    | .txnByUser =>
      { db with transactions_by_user := db.transactions_by_user ++
          [⟨DEMO_USER_ID, txn_time, txn_id, amount, category, merchant, payment_method⟩] }
    | .txnByCategory =>
      { db with transactions_by_category := db.transactions_by_category ++
          [⟨DEMO_USER_ID, category, txn_time, txn_id, amount, merchant⟩] }
    | .hourly =>
      { db with hourly_transactions := db.hourly_transactions ++
          [⟨hour_bucket, txn_time, txn_id, DEMO_USER_ID, amount, category⟩] }
    | .catCounter =>
      { db with spending_by_category := bumpCounter db.spending_by_category category cents }
    | .userCatCounter =>
      { db with spending_by_user_category :=
          bumpCounter db.spending_by_user_category (DEMO_USER_ID, category) cents }
    | .merchantCounter =>
      { db with merchant_statistics := bumpCounter db.merchant_statistics merchant cents }
    | .payCounter =>
      { db with payment_method_stats := bumpCounter db.payment_method_stats payment_method cents }

/-- The full fan-out of one event when every `session.execute` succeeds. -/
def writeEvent (row : Row) (t : PyDateTime) (id : ℕ) (db : DBState) : DBState :=
  destOrder.foldl (applyWrite row t id) db

/-- A synthesized event: the chosen template row plus the wall-clock time
and fresh identifier stamped on it (demo.py lines 295-298). -/
structure EventIn where
  row : Row
  txn_time : PyDateTime
  txn_id : ℕ

/-- A sequence of fully successful fan-outs. -/
def processAll (evs : List EventIn) (db : DBState) : DBState :=
  evs.foldl (fun db2 e => writeEvent e.row e.txn_time e.txn_id db2) db

/-- Result of one event's fan-out: the destinations attempted (in order),
the database state after the writes that happened, and the first
uncaught write error, if any. -/
structure FanOutOutcome where
  attempted : List Dest
  db : DBState
  error : Option Dest

/-- demo.py lines 305-348 under a failure oracle: the seven
`session.execute` calls run in program order; a raising call ends the
fan-out at once (the loop body has no per-write exception handler), so the
remaining destinations are not attempted. -/
def fanOutGo (fails : Dest → Bool) (row : Row) (t : PyDateTime) (id : ℕ) :
    List Dest → DBState → List Dest → FanOutOutcome
  | [], db, att => ⟨att, db, none⟩
  | d :: ds, db, att =>
    if fails d then ⟨att ++ [d], db, some d⟩
    else fanOutGo fails row t id ds (applyWrite row t id db d) (att ++ [d])

/-- One event's fan-out, starting from the full destination list. -/
def fanOut (fails : Dest → Bool) (row : Row) (t : PyDateTime) (id : ℕ) (db : DBState) :
    FanOutOutcome :=
  fanOutGo fails row t id destOrder db []

/-- One iteration's external input: either a `KeyboardInterrupt` delivered
at this point, or the synthesized event together with the oracle saying
which destination writes raise. -/
inductive IterInput
  | interrupt
  | event (row : Row) (t : PyDateTime) (id : ℕ) (fails : Dest → Bool)

/-- Why the stream loop stopped. -/
inductive StopReason
  | interrupted
  | crashed (d : Dest)
deriving DecidableEq

/-- The stream loop (demo.py lines 293-392): `try: while True: ...` with a
single `except KeyboardInterrupt` handler.  An interrupt is caught and
stops the loop gracefully; an exception from a destination write is not
caught, so it terminates the loop (and the process).  An exhausted input
list models a loop still running. -/
def streamLoop : List IterInput → DBState → DBState × Option StopReason
  | [], db => (db, none)
  | .interrupt :: _, db => (db, some .interrupted)
  | .event r t id f :: rest, db =>
    let o := fanOut f r t id db
    match o.error with
    | some d => (o.db, some (.crashed d))
    | none => streamLoop rest o.db

/-! Concrete sample values used by witnesses and counterexamples. -/

/-- A sample row: amount 10.00, merchant with the synthetic prefix. -/
def rowA : Row := ⟨⟨1000, 100⟩, "grocery_pos", "fraud_Acme", "credit_card"⟩

/-- A sample row: amount 19.99, merchant without the prefix. -/
def rowB : Row := ⟨⟨1999, 100⟩, "gas_transport", "Shell", "debit_card"⟩

/-- A sample row: amount 5.00. -/
def rowC : Row := ⟨⟨500, 100⟩, "grocery_pos", "fraud_Acme", "credit_card"⟩

/-- A sample timestamp. -/
def tA : PyDateTime := ⟨2026, 10, 12, 9, 0, 0, 0⟩

/-- A later sample timestamp in the next hour. -/
def tB : PyDateTime := ⟨2026, 10, 12, 10, 30, 0, 0⟩

/-! Sampler lemmas. -/

/-- Length bookkeeping of the reservoir loop: starting at position `i`
with `min i cap` rows stored, after `l` more rows `min (i + l.length) cap`
rows are stored. -/
theorem reservoirAux_length (cap : ℕ) (randint : ℕ → ℕ) :
    ∀ (l : List Row) (i : ℕ) (acc : List Row), acc.length = min i cap →
      (reservoirAux cap randint i acc l).length = min (i + l.length) cap := by
  intro l
  induction l with
  | nil => intro i acc h; simpa [reservoirAux] using h
  | cons r rs ih =>
    intro i acc h
    show (reservoirAux cap randint (i + 1) (reservoirStep cap randint acc i r) rs).length = _
    rw [ih (i + 1) _ ?_]
    · congr 1
      simp [List.length_cons]
      omega
    · unfold reservoirStep
      split
      · simp only [List.length_append, List.length_cons, List.length_nil]
        omega
      · split
        · simp only [List.length_set]
          omega
        · omega

/-- While the total number of rows fits under the capacity, the reservoir
loop just appends every row. -/
theorem reservoirAux_id (cap : ℕ) (randint : ℕ → ℕ) :
    ∀ (l : List Row) (i : ℕ) (acc : List Row), i + l.length ≤ cap →
      reservoirAux cap randint i acc l = acc ++ l := by
  intro l
  induction l with
  | nil => intro i acc _; simp [reservoirAux]
  | cons r rs ih =>
    intro i acc h
    show reservoirAux cap randint (i + 1) (reservoirStep cap randint acc i r) rs = _
    have hi : i < cap := by simp [List.length_cons] at h; omega
    rw [reservoirStep, if_pos hi, ih (i + 1) _ (by simp [List.length_cons] at h ⊢; omega)]
    simp

/-- Claim C10: the hour-bucket label the generator writes and the
current-hour key the dashboard queries with are the same function of the
timestamp — both are `strftime('%Y-%m-%d-%H')` — so the hourly query
addresses exactly the partition the writer populated. -/
theorem C10_bucket_key_agreement (t : PyDateTime) :
    get_hour_bucket t = dashboard_current_hour t := rfl

/-- Claim C5: for every capacity and every source that fits within it, the
resulting working set is the full source dataset in source order. -/
theorem C5_full_dataset_within_capacity (cap : ℕ) (randint : ℕ → ℕ) (rows : List Row)
    (h : rows.length ≤ cap) : loadSample cap randint rows = rows := by
  unfold loadSample
  have : ¬ rows.length > cap := by omega
  simp [this]

/-- Witness for C5 at a concrete input. -/
theorem C5_full_dataset_within_capacity_witness :
    loadSample 5 (fun _ => 0) [rowA, rowB, rowC] = [rowA, rowB, rowC] :=
  C5_full_dataset_within_capacity 5 (fun _ => 0) [rowA, rowB, rowC] (by decide)

/-- Claim C6: the working set never exceeds the capacity at any step of the
load: every prefix state of the reservoir loop has at most `cap` rows, the
first `cap` rows are stored unconditionally, every later row either
overwrites an existing slot or is discarded, and the final working set
(whichever branch the load takes) has at most `cap` rows. -/
theorem C6_capacity_invariant (cap : ℕ) (randint : ℕ → ℕ) (rows : List Row) :
    (∀ k, (reservoirAux cap randint 0 [] (rows.take k)).length ≤ cap) ∧
    (∀ k, k ≤ cap → reservoirAux cap randint 0 [] (rows.take k) = rows.take k) ∧
    (∀ (i : ℕ) (acc : List Row) (r : Row), cap ≤ i →
      reservoirStep cap randint acc i r = acc.set (randint i) r ∨
      reservoirStep cap randint acc i r = acc) ∧
    (loadSample cap randint rows).length ≤ cap := by
  refine ⟨?_, ?_, ?_, ?_⟩
  · intro k
    rw [reservoirAux_length cap randint _ 0 [] (by simp)]
    omega
  · intro k hk
    have := reservoirAux_id cap randint (rows.take k) 0 []
      (by simp [List.length_take]; omega)
    simpa using this
  · intro i acc r hi
    unfold reservoirStep
    rw [if_neg (by omega)]
    split
    · exact Or.inl rfl
    · exact Or.inr rfl
  · unfold loadSample
    split
    · rw [reservoirAux_length cap randint rows 0 [] (by simp)]
      omega
    · omega

/-- Witness for C6 at a concrete input. -/
theorem C6_capacity_invariant_witness :
    reservoirAux 2 (fun _ => 0) 0 [] ([rowA, rowB, rowC].take 2) = [rowA, rowB, rowC].take 2 ∧
    (loadSample 2 (fun _ => 1) [rowA, rowB, rowC]).length ≤ 2 :=
  (fun h => ⟨h.2.1 2 (by decide), h.2.2.2⟩) (C6_capacity_invariant 2 (fun _ => 1) [rowA, rowB, rowC])

/-- Claim C4, counterexample: with the source file present but yielding zero
records, the load succeeds with an empty working set — there is no
`EmptySource` startup failure — and the failure surfaces only at the first
synthesis attempt, where `random.choice` raises on the empty sequence. -/
theorem C4_counterexample :
    loadData true 50000 (fun _ => 0) [] = Except.ok [] ∧
    randomChoice [] 0 = none := by
  exact ⟨rfl, rfl⟩

/-- Claim C4, amended: a missing source file is a fatal startup failure
(`SourceNotFound`, `exit(1)`), but an empty source is not detected at
startup: the load succeeds with an empty working set and every later
synthesis attempt fails when `random.choice` raises on the empty list. -/
theorem C4_amended_startup_errors (cap : ℕ) (randint : ℕ → ℕ) (rows : List Row) :
    loadData false cap randint rows = Except.error StartupError.SourceNotFound ∧
    loadData true cap randint [] = Except.ok [] ∧
    ∀ pick, randomChoice [] pick = none := by
  refine ⟨rfl, ?_, fun pick => rfl⟩
  simp [loadData, loadSample]

/-! Projections of one fully successful fan-out. -/

/-- Write 1 (demo.py lines 308-310). -/
theorem writeEvent_txn_by_user (row : Row) (t : PyDateTime) (id : ℕ) (db : DBState) :
    (writeEvent row t id db).transactions_by_user = db.transactions_by_user ++
      [⟨DEMO_USER_ID, t, id, rnd53 row.amount, row.category, clean_merchant row.merchant,
        row.payment_method⟩] := rfl

/-- Write 2 (demo.py lines 313-315). -/
theorem writeEvent_txn_by_category (row : Row) (t : PyDateTime) (id : ℕ) (db : DBState) :
    (writeEvent row t id db).transactions_by_category = db.transactions_by_category ++
      [⟨DEMO_USER_ID, row.category, t, id, rnd53 row.amount,
        clean_merchant row.merchant⟩] := rfl

/-- Write 3 (demo.py lines 318-320). -/
theorem writeEvent_hourly (row : Row) (t : PyDateTime) (id : ℕ) (db : DBState) :
    (writeEvent row t id db).hourly_transactions = db.hourly_transactions ++
      [⟨get_hour_bucket t, t, id, DEMO_USER_ID, rnd53 row.amount, row.category⟩] := rfl

/-- Write 4 (demo.py lines 323-327). -/
theorem writeEvent_spending_by_category (row : Row) (t : PyDateTime) (id : ℕ) (db : DBState) :
    (writeEvent row t id db).spending_by_category =
      bumpCounter db.spending_by_category row.category (cents_of_amount row.amount) := rfl

/-- Write 5 (demo.py lines 330-334). -/
theorem writeEvent_spending_by_user_category (row : Row) (t : PyDateTime) (id : ℕ)
    (db : DBState) :
    (writeEvent row t id db).spending_by_user_category =
      bumpCounter db.spending_by_user_category (DEMO_USER_ID, row.category)
        (cents_of_amount row.amount) := rfl

/-- Write 6 (demo.py lines 337-341). -/
theorem writeEvent_merchant_statistics (row : Row) (t : PyDateTime) (id : ℕ) (db : DBState) :
    (writeEvent row t id db).merchant_statistics =
      bumpCounter db.merchant_statistics (clean_merchant row.merchant)
        (cents_of_amount row.amount) := rfl

/-- Write 7 (demo.py lines 344-348). -/
theorem writeEvent_payment_method_stats (row : Row) (t : PyDateTime) (id : ℕ) (db : DBState) :
    (writeEvent row t id db).payment_method_stats =
      bumpCounter db.payment_method_stats row.payment_method
        (cents_of_amount row.amount) := rfl

/-- Claim C8: every destination that records a merchant stores the cleaned
merchant: the synthetic `fraud_` prefix is removed when present, the value
is unchanged when absent, and in particular `fraud_Acme` is stored as
`Acme`. -/
theorem C8_merchant_prefix_stripped (m : String) (row : Row) (t : PyDateTime) (id : ℕ)
    (db : DBState) :
    ("fraud_".data.isPrefixOf m.data = true → clean_merchant m = m.drop 6) ∧
    ("fraud_".data.isPrefixOf m.data = false → clean_merchant m = m) ∧
    clean_merchant "fraud_Acme" = "Acme" ∧
    (writeEvent row t id db).transactions_by_user = db.transactions_by_user ++
      [⟨DEMO_USER_ID, t, id, rnd53 row.amount, row.category, clean_merchant row.merchant,
        row.payment_method⟩] ∧
    (writeEvent row t id db).transactions_by_category = db.transactions_by_category ++
      [⟨DEMO_USER_ID, row.category, t, id, rnd53 row.amount, clean_merchant row.merchant⟩] ∧
    (writeEvent row t id db).merchant_statistics =
      bumpCounter db.merchant_statistics (clean_merchant row.merchant)
        (cents_of_amount row.amount) :=
  ⟨fun h => by simp [clean_merchant, h],
   fun h => by simp [clean_merchant, h],
   by decide,
   writeEvent_txn_by_user row t id db,
   writeEvent_txn_by_category row t id db,
   writeEvent_merchant_statistics row t id db⟩

/-- Witness for C8 at a concrete input. -/
theorem C8_merchant_prefix_stripped_witness :
    clean_merchant "fraud_Acme" = "fraud_Acme".drop 6 ∧ clean_merchant "Shell" = "Shell" :=
  ⟨(C8_merchant_prefix_stripped "fraud_Acme" rowA tA 0 emptyDB).1 (by decide),
   (C8_merchant_prefix_stripped "Shell" rowA tA 0 emptyDB).2.1 (by decide)⟩

/-! The fan-out under failures. -/

/-- The failure oracle that makes only the first destination's write
raise. -/
def failFirst : Dest → Bool := fun d =>
  match d with
  | .txnByUser => true
  | _ => false

/-- Full characterisation of `fanOutGo`: the attempts are the
failure-free order-prefix plus the first failing destination (if any),
only the failure-free prefix's writes are applied, and the error is the
first failing destination. -/
theorem fanOutGo_spec (fails : Dest → Bool) (row : Row) (t : PyDateTime) (id : ℕ) :
    ∀ (l : List Dest) (db : DBState) (att : List Dest),
      fanOutGo fails row t id l db att =
        ⟨att ++ l.takeWhile (fun d => !fails d) ++ (l.dropWhile (fun d => !fails d)).take 1,
         (l.takeWhile (fun d => !fails d)).foldl (applyWrite row t id) db,
         (l.dropWhile (fun d => !fails d)).head?⟩ := by
  intro l
  induction l with
  | nil => intro db att; simp [fanOutGo]
  | cons d ds ih =>
    intro db att
    cases hf : fails d with
    | true => simp [fanOutGo, hf]
    | false => simp [fanOutGo, hf, ih]

/-- Claim C2, counterexample: with only the first destination's write
raising, the fan-out of one event attempts exactly one destination — the
remaining six are never attempted, no state is written, and the error
propagates instead of being captured per destination. -/
theorem C2_counterexample :
    (fanOut failFirst rowA tA 0 emptyDB).attempted = [Dest.txnByUser] ∧
    (fanOut failFirst rowA tA 0 emptyDB).attempted ≠ destOrder ∧
    (fanOut failFirst rowA tA 0 emptyDB).error = some Dest.txnByUser ∧
    (fanOut failFirst rowA tA 0 emptyDB).db.spending_by_category rowA.category = ⟨0, 0⟩ ∧
    (fanOut failFirst rowA tA 0 emptyDB).db.transactions_by_user = [] :=
  ⟨rfl, by decide, rfl, rfl, rfl⟩

/-- Claim C2, amended: the seven destination writes run in program order
with no per-destination error capture.  When no write raises, all seven
destinations are attempted exactly once; when some write raises, exactly
the failure-free prefix plus the first failing destination are attempted,
only the prefix's writes are applied, and the error propagates, aborting
the rest of the fan-out. -/
theorem C2_amended_fanout (fails : Dest → Bool) (row : Row) (t : PyDateTime) (id : ℕ)
    (db : DBState) :
    fanOut fails row t id db =
      ⟨destOrder.takeWhile (fun d => !fails d) ++
         (destOrder.dropWhile (fun d => !fails d)).take 1,
       (destOrder.takeWhile (fun d => !fails d)).foldl (applyWrite row t id) db,
       (destOrder.dropWhile (fun d => !fails d)).head?⟩ ∧
    ((∀ d, fails d = false) →
      fanOut fails row t id db = ⟨destOrder, writeEvent row t id db, none⟩) := by
  constructor
  · simpa [fanOut] using fanOutGo_spec fails row t id destOrder db []
  · intro h
    rw [fanOut, fanOutGo_spec]
    simp [destOrder, writeEvent, h]

/-- Witness for C2 (amended) at a concrete input. -/
theorem C2_amended_fanout_witness :
    fanOut (fun _ => false) rowA tA 0 emptyDB = ⟨destOrder, writeEvent rowA tA 0 emptyDB, none⟩ :=
  (C2_amended_fanout (fun _ => false) rowA tA 0 emptyDB).2 (fun _ => rfl)

/-! The stream loop. -/

/-- An iteration input that is an event none of whose destination writes
raise. -/
def cleanEvent (it : IterInput) : Prop :=
  ∃ r t id f, it = IterInput.event r t id f ∧ ∀ d, f d = false

/-- The first sample iteration: an event whose first destination write
raises. -/
def iterFail : IterInput := .event rowA tA 0 failFirst

/-- The second sample iteration: an event with no failures. -/
def iterOk : IterInput := .event rowB tB 1 (fun _ => false)

/-- A fan-out with no failing destination reports no error. -/
theorem fanOut_error_none (f : Dest → Bool) (row : Row) (t : PyDateTime) (id : ℕ)
    (db : DBState) (h : ∀ d, f d = false) : (fanOut f row t id db).error = none := by
  rw [fanOut, fanOutGo_spec]
  simp [destOrder, h]

/-- A fan-out with no failing destination performs all seven writes. -/
theorem fanOut_db_of_no_failure (f : Dest → Bool) (row : Row) (t : PyDateTime) (id : ℕ)
    (db : DBState) (h : ∀ d, f d = false) :
    (fanOut f row t id db).db = writeEvent row t id db := by
  rw [fanOut, fanOutGo_spec]
  simp [destOrder, writeEvent, h]

/-- Claim C3, counterexample: a destination failure during the first event's
fan-out terminates the stream loop (the exception is not a
`KeyboardInterrupt`, so nothing catches it): the second event is never
processed — none of its destinations are attempted. -/
theorem C3_counterexample :
    (streamLoop [iterFail, iterOk] emptyDB).2 = some (StopReason.crashed Dest.txnByUser) ∧
    (streamLoop [iterFail, iterOk] emptyDB).1.payment_method_stats rowB.payment_method =
      ⟨0, 0⟩ ∧
    (streamLoop [iterFail, iterOk] emptyDB).1.transactions_by_user = [] :=
  ⟨rfl, rfl, rfl⟩

/-- Claim C3, amended: in the Streaming state, only `KeyboardInterrupt` is
caught: an interrupt stops the loop gracefully; as long as every event's
destination writes all succeed, the loop never stops on its own; but an
uncaught destination-write error during one event's fan-out terminates the
loop at once, so subsequent events are not attempted. -/
theorem C3_amended_loop_termination :
    (∀ (rest : List IterInput) (db : DBState),
      streamLoop (IterInput.interrupt :: rest) db = (db, some StopReason.interrupted)) ∧
    (∀ (inputs : List IterInput) (db : DBState),
      (∀ it ∈ inputs, cleanEvent it) → (streamLoop inputs db).2 = none) ∧
    (∀ (row : Row) (t : PyDateTime) (id : ℕ) (f : Dest → Bool) (rest : List IterInput)
      (db : DBState) (d : Dest),
      (fanOut f row t id db).error = some d →
      streamLoop (IterInput.event row t id f :: rest) db =
        ((fanOut f row t id db).db, some (StopReason.crashed d))) := by
  refine ⟨fun rest db => rfl, ?_, ?_⟩
  · intro inputs
    induction inputs with
    | nil => intro db _; rfl
    | cons it rest ih =>
      intro db h
      obtain ⟨r, t, id, f, rfl, hf⟩ := h it (by simp)
      show (streamLoop (IterInput.event r t id f :: rest) db).2 = none
      simp only [streamLoop]
      rw [fanOut_error_none f r t id db hf]
      exact ih _ (fun it2 hit2 => h it2 (by simp [hit2]))
  · intro row t id f rest db d h
    simp only [streamLoop]
    rw [h]

/-- Witness for C3 (amended) at concrete inputs. -/
theorem C3_amended_loop_termination_witness :
    (streamLoop [iterOk] emptyDB).2 = none ∧
    streamLoop [iterFail] emptyDB =
      ((fanOut failFirst rowA tA 0 emptyDB).db, some (StopReason.crashed Dest.txnByUser)) :=
  ⟨C3_amended_loop_termination.2.1 [iterOk] emptyDB
      (fun it hit => ⟨rowB, tB, 1, fun _ => false, by simpa [iterOk] using hit, fun d => rfl⟩),
   C3_amended_loop_termination.2.2 rowA tA 0 failFirst [] emptyDB Dest.txnByUser rfl⟩

/-! Counter-table accounting. -/

/-- The non-negativity of the float pipeline: normalisation keeps the
numerator sign. -/
theorem norm53_nonneg : ∀ (fuel : ℕ) (a : Dec) (e : ℤ), 0 ≤ a.n →
    0 ≤ ((norm53 fuel a e).1).n := by
  intro fuel
  induction fuel with
  | zero => intro a e h; exact h
  | succ m ih =>
    intro a e h
    unfold norm53
    split
    · exact ih _ _ (by show (0 : ℤ) ≤ 2 * a.n; omega)
    · split
      · exact ih _ _ h
      · exact h

/-- Flooring a non-negative fraction is non-negative. -/
theorem Dec.floorD_nonneg (a : Dec) (h : 0 ≤ a.n) : 0 ≤ a.floorD :=
  Int.fdiv_nonneg h (by positivity)

/-- Rounding a non-negative fraction is non-negative. -/
theorem rne_nonneg (a : Dec) (h : 0 ≤ a.n) : 0 ≤ rne a := by
  have hf := Dec.floorD_nonneg a h
  simp only [rne]
  split_ifs <;> omega

/-- The positive-range rounding keeps non-negativity. -/
theorem rnd53pos_nonneg (a : Dec) (h : 0 ≤ a.n) : 0 ≤ (rnd53pos a).n := by
  have h1 : 0 ≤ ((norm53 6000 a 0).1).n := norm53_nonneg 6000 a 0 h
  have h2 : 0 ≤ rne ⟨((norm53 6000 a 0).1).n * 4503599627370496, ((norm53 6000 a 0).1).d⟩ := by
    apply rne_nonneg
    show 0 ≤ ((norm53 6000 a 0).1).n * 4503599627370496
    exact mul_nonneg h1 (by norm_num)
  simp only [rnd53pos]
  split_ifs
  · exact mul_nonneg h2 (pow_nonneg (by norm_num) _)
  · exact h2

/-- The double nearest to a non-negative value is non-negative. -/
theorem rnd53_nonneg (a : Dec) (h : 0 ≤ a.n) : 0 ≤ (rnd53 a).n := by
  simp only [rnd53]
  split_ifs with h0 hneg
  · exact le_refl 0
  · omega
  · exact rnd53pos_nonneg a h

/-- The counter increment of a non-negative amount is non-negative. -/
theorem cents_of_amount_nonneg (a : Dec) (h : 0 ≤ a.n) : 0 ≤ cents_of_amount a := by
  have h1 : 0 ≤ (rnd53 a).n := rnd53_nonneg a h
  have h2 : 0 ≤ (dmul (rnd53 a) ⟨100, 1⟩).n := by
    rw [dmul]
    apply rnd53_nonneg
    show 0 ≤ (rnd53 a).n * 100
    exact mul_nonneg h1 (by norm_num)
  rw [cents_of_amount, truncInt, if_pos h2]
  exact Dec.floorD_nonneg _ h2

/-- Pointwise order on counter tables. -/
def counterLE {κ : Type} (a b : CounterTable κ) : Prop :=
  ∀ k, (a k).total_amount ≤ (b k).total_amount ∧
    (a k).transaction_count ≤ (b k).transaction_count

/-- Pointwise order on the four counter tables of the database. -/
def countersLE (a b : DBState) : Prop :=
  counterLE a.spending_by_category b.spending_by_category ∧
  counterLE a.spending_by_user_category b.spending_by_user_category ∧
  counterLE a.merchant_statistics b.merchant_statistics ∧
  counterLE a.payment_method_stats b.payment_method_stats

theorem counterLE_refl {κ : Type} (a : CounterTable κ) : counterLE a a :=
  fun _ => ⟨le_refl _, le_refl _⟩

theorem counterLE_trans {κ : Type} {a b c : CounterTable κ} (h1 : counterLE a b)
    (h2 : counterLE b c) : counterLE a c :=
  fun k => ⟨le_trans (h1 k).1 (h2 k).1, le_trans (h1 k).2 (h2 k).2⟩

/-- A counter update with a non-negative increment never decreases any
stored counter. -/
theorem counterLE_bump {κ : Type} [DecidableEq κ] (tbl : CounterTable κ) (k : κ) (inc : ℤ)
    (h : 0 ≤ inc) : counterLE tbl (bumpCounter tbl k inc) := by
  intro k2
  simp only [bumpCounter]
  split_ifs
  · refine ⟨?_, ?_⟩ <;> dsimp only <;> omega
  · exact ⟨le_refl _, le_refl _⟩

theorem countersLE_refl (a : DBState) : countersLE a a :=
  ⟨counterLE_refl _, counterLE_refl _, counterLE_refl _, counterLE_refl _⟩

theorem countersLE_trans {a b c : DBState} (h1 : countersLE a b) (h2 : countersLE b c) :
    countersLE a c :=
  ⟨counterLE_trans h1.1 h2.1, counterLE_trans h1.2.1 h2.2.1,
   counterLE_trans h1.2.2.1 h2.2.2.1, counterLE_trans h1.2.2.2 h2.2.2.2⟩

/-- One successful fan-out never decreases any counter when the event's
amount is non-negative. -/
theorem countersLE_writeEvent (row : Row) (t : PyDateTime) (id : ℕ) (db : DBState)
    (h : 0 ≤ row.amount.n) : countersLE db (writeEvent row t id db) := by
  have hc := cents_of_amount_nonneg row.amount h
  refine ⟨?_, ?_, ?_, ?_⟩
  · rw [writeEvent_spending_by_category]; exact counterLE_bump _ _ _ hc
  · rw [writeEvent_spending_by_user_category]; exact counterLE_bump _ _ _ hc
  · rw [writeEvent_merchant_statistics]; exact counterLE_bump _ _ _ hc
  · rw [writeEvent_payment_method_stats]; exact counterLE_bump _ _ _ hc

/-- A sequence of successful fan-outs never decreases any counter when all
amounts are non-negative. -/
theorem countersLE_processAll (evs : List EventIn) :
    ∀ db, (∀ e ∈ evs, 0 ≤ e.row.amount.n) → countersLE db (processAll evs db) := by
  induction evs with
  | nil => intro db _; exact countersLE_refl db
  | cons e es ih =>
    intro db h
    have h1 := countersLE_writeEvent e.row e.txn_time e.txn_id db (h e (by simp))
    have h2 := ih (writeEvent e.row e.txn_time e.txn_id db) (fun x hx => h x (by simp [hx]))
    exact countersLE_trans h1 h2

/-- Pointwise order of the transaction counts alone. -/
def counterCountLE {κ : Type} (a b : CounterTable κ) : Prop :=
  ∀ k, (a k).transaction_count ≤ (b k).transaction_count

/-- Pointwise order of the transaction counts across the four counter
tables of the database. -/
def countersCountLE (a b : DBState) : Prop :=
  counterCountLE a.spending_by_category b.spending_by_category ∧
  counterCountLE a.spending_by_user_category b.spending_by_user_category ∧
  counterCountLE a.merchant_statistics b.merchant_statistics ∧
  counterCountLE a.payment_method_stats b.payment_method_stats

theorem counterCountLE_refl {κ : Type} (a : CounterTable κ) : counterCountLE a a :=
  fun _ => le_refl _

theorem counterCountLE_trans {κ : Type} {a b c : CounterTable κ} (h1 : counterCountLE a b)
    (h2 : counterCountLE b c) : counterCountLE a c :=
  fun k => le_trans (h1 k) (h2 k)

/-- A counter update never decreases any stored transaction count,
whatever the sign of the amount increment. -/
theorem counterCountLE_bump {κ : Type} [DecidableEq κ] (tbl : CounterTable κ) (k : κ)
    (inc : ℤ) : counterCountLE tbl (bumpCounter tbl k inc) := by
  intro k2
  simp only [bumpCounter]
  split_ifs
  · dsimp only
    omega
  · exact le_refl _

theorem countersCountLE_refl (a : DBState) : countersCountLE a a :=
  ⟨counterCountLE_refl _, counterCountLE_refl _, counterCountLE_refl _, counterCountLE_refl _⟩

theorem countersCountLE_trans {a b c : DBState} (h1 : countersCountLE a b)
    (h2 : countersCountLE b c) : countersCountLE a c :=
  ⟨counterCountLE_trans h1.1 h2.1, counterCountLE_trans h1.2.1 h2.2.1,
   counterCountLE_trans h1.2.2.1 h2.2.2.1, counterCountLE_trans h1.2.2.2 h2.2.2.2⟩

/-- One successful fan-out never decreases any transaction count. -/
theorem countersCountLE_writeEvent (row : Row) (t : PyDateTime) (id : ℕ) (db : DBState) :
    countersCountLE db (writeEvent row t id db) := by
  refine ⟨?_, ?_, ?_, ?_⟩
  · rw [writeEvent_spending_by_category]; exact counterCountLE_bump _ _ _
  · rw [writeEvent_spending_by_user_category]; exact counterCountLE_bump _ _ _
  · rw [writeEvent_merchant_statistics]; exact counterCountLE_bump _ _ _
  · rw [writeEvent_payment_method_stats]; exact counterCountLE_bump _ _ _

/-- A sequence of successful fan-outs never decreases any transaction
count, whatever the amounts. -/
theorem countersCountLE_processAll (evs : List EventIn) :
    ∀ db, countersCountLE db (processAll evs db) := by
  induction evs with
  | nil => intro db; exact countersCountLE_refl db
  | cons e es ih =>
    intro db
    exact countersCountLE_trans (countersCountLE_writeEvent e.row e.txn_time e.txn_id db)
      (ih (writeEvent e.row e.txn_time e.txn_id db))

/-- A sample row with a negative amount column, -5.00 (the code has no
sign check). -/
def rowNeg : Row := ⟨⟨-500, 100⟩, "misc_net", "Acme", "credit_card"⟩

/-- Claim C7, counterexample: a counter write for an event whose amount
column is `-5.00` adds `int(float('-5.00') * 100) = -500`: the amount
increment is negative and the stored `total_amount` strictly decreases
(from 0 to -500), so counters are not unconditionally monotonically
non-decreasing — the code never checks the sign of the amount. -/
theorem C7_counterexample :
    cents_of_amount rowNeg.amount = -500 ∧
    ((writeEvent rowNeg tA 0 emptyDB).spending_by_category "misc_net").total_amount = -500 ∧
    ((writeEvent rowNeg tA 0 emptyDB).spending_by_category "misc_net").total_amount <
      (emptyDB.spending_by_category "misc_net").total_amount ∧
    ¬ (0 : ℤ) ≤ cents_of_amount rowNeg.amount := by
  refine ⟨by decide, by decide, by decide, by decide⟩

/-- Claim C7, amended: every counter write adds a count increment of
exactly 1 and the amount increment `int(float(amount) * 100)` at the
event's key in each of the four counter tables; `transaction_count` is
therefore monotonically non-decreasing across the sequence of fan-out
writes unconditionally, while `total_amount` is monotonically
non-decreasing provided every event's amount is non-negative — the code
performs no sign check, and the amount increment is non-negative exactly
when the event's amount is (see the counterexample for a negative
amount). -/
theorem C7_counters_monotone (evs : List EventIn) (db : DBState) (row : Row)
    (t : PyDateTime) (id : ℕ) :
    countersCountLE db (processAll evs db) ∧
    ((∀ e ∈ evs, 0 ≤ e.row.amount.n) → countersLE db (processAll evs db)) ∧
    (0 ≤ row.amount.n → 0 ≤ cents_of_amount row.amount) ∧
    (writeEvent row t id db).spending_by_category row.category =
      ⟨(db.spending_by_category row.category).total_amount + cents_of_amount row.amount,
       (db.spending_by_category row.category).transaction_count + 1⟩ ∧
    (writeEvent row t id db).spending_by_user_category (DEMO_USER_ID, row.category) =
      ⟨(db.spending_by_user_category (DEMO_USER_ID, row.category)).total_amount +
         cents_of_amount row.amount,
       (db.spending_by_user_category (DEMO_USER_ID, row.category)).transaction_count + 1⟩ ∧
    (writeEvent row t id db).merchant_statistics (clean_merchant row.merchant) =
      ⟨(db.merchant_statistics (clean_merchant row.merchant)).total_amount +
         cents_of_amount row.amount,
       (db.merchant_statistics (clean_merchant row.merchant)).transaction_count + 1⟩ ∧
    (writeEvent row t id db).payment_method_stats row.payment_method =
      ⟨(db.payment_method_stats row.payment_method).total_amount + cents_of_amount row.amount,
       (db.payment_method_stats row.payment_method).transaction_count + 1⟩ := by
  refine ⟨countersCountLE_processAll evs db,
    fun hnn => countersLE_processAll evs db hnn,
    fun hrow => cents_of_amount_nonneg row.amount hrow,
    ?_, ?_, ?_, ?_⟩
  · rw [writeEvent_spending_by_category]; simp [bumpCounter]
  · rw [writeEvent_spending_by_user_category]; simp [bumpCounter]
  · rw [writeEvent_merchant_statistics]; simp [bumpCounter]
  · rw [writeEvent_payment_method_stats]; simp [bumpCounter]

/-- Witness for C7 (amended) at a concrete input. -/
theorem C7_counters_monotone_witness :
    countersCountLE emptyDB (processAll [⟨rowA, tA, 0⟩] emptyDB) ∧
    countersLE emptyDB (processAll [⟨rowA, tA, 0⟩] emptyDB) ∧
    0 ≤ cents_of_amount rowA.amount :=
  (fun h => ⟨h.1, h.2.1 (by decide), h.2.2.1 (by decide)⟩)
    (C7_counters_monotone [⟨rowA, tA, 0⟩] emptyDB rowA tA 0)

/-- Exact accounting of a fold of counter updates: the stored counters at
key `k` gain the sum of the increments and the number of the updates whose
key is `k`. -/
theorem foldl_bumpCounter {κ E : Type} [DecidableEq κ] (keyfn : E → κ) (incfn : E → ℤ) :
    ∀ (l : List E) (tbl : CounterTable κ) (k : κ),
      (l.foldl (fun tb e => bumpCounter tb (keyfn e) (incfn e)) tbl) k =
        ⟨(tbl k).total_amount + ((l.filter (fun e => keyfn e = k)).map incfn).sum,
         (tbl k).transaction_count + ((l.filter (fun e => keyfn e = k)).length : ℤ)⟩ := by
  intro l
  induction l with
  | nil => intro tbl k; simp
  | cons e es ih =>
    intro tbl k
    rw [List.foldl_cons, ih]
    by_cases hk : keyfn e = k
    · subst hk
      simp [bumpCounter, List.filter_cons]
      constructor <;> ring
    · have hk2 : ¬ k = keyfn e := fun h => hk h.symm
      simp [bumpCounter, List.filter_cons, hk, hk2]

/-- The category counter across a sequence of fan-outs is the fold of its
per-event updates. -/
theorem processAll_spending_by_category :
    ∀ (evs : List EventIn) (db : DBState),
      (processAll evs db).spending_by_category =
        evs.foldl (fun tbl e => bumpCounter tbl e.row.category (cents_of_amount e.row.amount))
          db.spending_by_category := by
  intro evs
  induction evs with
  | nil => intro db; rfl
  | cons e es ih =>
    intro db
    show (processAll es (writeEvent e.row e.txn_time e.txn_id db)).spending_by_category = _
    rw [ih, writeEvent_spending_by_category, List.foldl_cons]

/-- The user-and-category counter across a sequence of fan-outs is the
fold of its per-event updates. -/
theorem processAll_spending_by_user_category :
    ∀ (evs : List EventIn) (db : DBState),
      (processAll evs db).spending_by_user_category =
        evs.foldl
          (fun tbl e => bumpCounter tbl (DEMO_USER_ID, e.row.category)
            (cents_of_amount e.row.amount))
          db.spending_by_user_category := by
  intro evs
  induction evs with
  | nil => intro db; rfl
  | cons e es ih =>
    intro db
    show (processAll es (writeEvent e.row e.txn_time e.txn_id db)).spending_by_user_category = _
    rw [ih, writeEvent_spending_by_user_category, List.foldl_cons]

/-- The merchant counter across a sequence of fan-outs is the fold of its
per-event updates. -/
theorem processAll_merchant_statistics :
    ∀ (evs : List EventIn) (db : DBState),
      (processAll evs db).merchant_statistics =
        evs.foldl
          (fun tbl e => bumpCounter tbl (clean_merchant e.row.merchant)
            (cents_of_amount e.row.amount))
          db.merchant_statistics := by
  intro evs
  induction evs with
  | nil => intro db; rfl
  | cons e es ih =>
    intro db
    show (processAll es (writeEvent e.row e.txn_time e.txn_id db)).merchant_statistics = _
    rw [ih, writeEvent_merchant_statistics, List.foldl_cons]

/-- The payment-method counter across a sequence of fan-outs is the fold
of its per-event updates. -/
theorem processAll_payment_method_stats :
    ∀ (evs : List EventIn) (db : DBState),
      (processAll evs db).payment_method_stats =
        evs.foldl
          (fun tbl e => bumpCounter tbl e.row.payment_method (cents_of_amount e.row.amount))
          db.payment_method_stats := by
  intro evs
  induction evs with
  | nil => intro db; rfl
  | cons e es ih =>
    intro db
    show (processAll es (writeEvent e.row e.txn_time e.txn_id db)).payment_method_stats = _
    rw [ih, writeEvent_payment_method_stats, List.foldl_cons]

/-- Claim C1, amended: after a fan-out of K events, every counter
destination stores, for each key, a transaction count equal to the number
of events carrying that key's dimension value, and a total amount equal to
the sum of the code's per-event increments `int(float(amount) * 100)` —
the float-computed, truncated cents, which can fall short of the exact
decimal minor units (see the counterexample). -/
theorem C1_amended_counter_totals (evs : List EventIn) (k : String) (u : String) :
    (processAll evs emptyDB).spending_by_category k =
      ⟨((evs.filter (fun e => e.row.category = k)).map
          (fun e => cents_of_amount e.row.amount)).sum,
       ((evs.filter (fun e => e.row.category = k)).length : ℤ)⟩ ∧
    (processAll evs emptyDB).merchant_statistics k =
      ⟨((evs.filter (fun e => clean_merchant e.row.merchant = k)).map
          (fun e => cents_of_amount e.row.amount)).sum,
       ((evs.filter (fun e => clean_merchant e.row.merchant = k)).length : ℤ)⟩ ∧
    (processAll evs emptyDB).payment_method_stats k =
      ⟨((evs.filter (fun e => e.row.payment_method = k)).map
          (fun e => cents_of_amount e.row.amount)).sum,
       ((evs.filter (fun e => e.row.payment_method = k)).length : ℤ)⟩ ∧
    (processAll evs emptyDB).spending_by_user_category (u, k) =
      (if u = DEMO_USER_ID then
        ⟨((evs.filter (fun e => e.row.category = k)).map
            (fun e => cents_of_amount e.row.amount)).sum,
         ((evs.filter (fun e => e.row.category = k)).length : ℤ)⟩
       else ⟨0, 0⟩) := by
  refine ⟨?_, ?_, ?_, ?_⟩
  · rw [processAll_spending_by_category,
      foldl_bumpCounter (fun e : EventIn => e.row.category)
        (fun e => cents_of_amount e.row.amount) evs _ k]
    simp [emptyDB]
  · rw [processAll_merchant_statistics,
      foldl_bumpCounter (fun e : EventIn => clean_merchant e.row.merchant)
        (fun e => cents_of_amount e.row.amount) evs _ k]
    simp [emptyDB]
  · rw [processAll_payment_method_stats,
      foldl_bumpCounter (fun e : EventIn => e.row.payment_method)
        (fun e => cents_of_amount e.row.amount) evs _ k]
    simp [emptyDB]
  · rw [processAll_spending_by_user_category,
      foldl_bumpCounter (fun e : EventIn => (DEMO_USER_ID, e.row.category))
        (fun e => cents_of_amount e.row.amount) evs _ (u, k)]
    by_cases hu : u = DEMO_USER_ID
    · subst hu
      rw [if_pos rfl]
      have hpred : ∀ e ∈ evs,
          (decide ((DEMO_USER_ID, e.row.category) = (DEMO_USER_ID, k)))
            = decide (e.row.category = k) := by
        intro e _
        simp [decide_eq_decide]
      rw [List.filter_congr hpred]
      simp [emptyDB]
    · rw [if_neg hu]
      have hnil : evs.filter
          (fun e => decide ((DEMO_USER_ID, e.row.category) = (u, k))) = [] := by
        rw [List.filter_eq_nil_iff]
        intro e _
        simp only [decide_eq_true_eq, Prod.mk.injEq, not_and]
        intro h1
        exact absurd h1.symm hu
      rw [hnil]
      simp [emptyDB]

/-- Claim C1, counterexample: one event drawn from a row whose amount column
is `19.99`.  The exact amount in minor units is 1999 cents, but the code
stores `int(float('19.99') * 100) = 1998`: the stored total is not the
exact sum of the amounts in minor units. -/
theorem C1_counterexample :
    ((processAll [⟨rowB, tA, 0⟩] emptyDB).spending_by_category
        "gas_transport").transaction_count = 1 ∧
    ((processAll [⟨rowB, tA, 0⟩] emptyDB).spending_by_category
        "gas_transport").total_amount = 1998 ∧
    exact_minor_units rowB.amount = 1999 ∧
    ((((processAll [⟨rowB, tA, 0⟩] emptyDB).spending_by_category
        "gas_transport").total_amount : ℚ) ≠ exact_minor_units rowB.amount) := by
  have h : ((processAll [⟨rowB, tA, 0⟩] emptyDB).spending_by_category
      "gas_transport").total_amount = 1998 := by decide
  have he : exact_minor_units rowB.amount = 1999 := by
    norm_num [exact_minor_units, Dec.toRat, rowB]
  refine ⟨by decide, h, he, ?_⟩
  rw [h, he]
  norm_num

/-! Lexicographic order of the hour-bucket labels. -/

/-- Digit characters compare like the digits they stand for. -/
theorem digitChar_lt : ∀ x < 10, ∀ y < 10, x < y → digitChar x < digitChar y := by decide

/-- A strict lexicographic comparison of two equal-length lists survives
appending arbitrary suffixes. -/
theorem lex_append_same_len : ∀ {a b : List Char}, List.Lex (· < ·) a b →
    a.length = b.length → ∀ (s u : List Char), List.Lex (· < ·) (a ++ s) (b ++ u) := by
  intro a b h
  induction h with
  | nil => intro hlen; simp at hlen
  | cons h ih =>
    intro hlen s u
    exact List.Lex.cons (ih (by simpa using hlen) s u)
  | rel hr => intro _ s u; exact List.Lex.rel hr

/-- A strict lexicographic comparison survives prepending a common
block. -/
theorem lex_append_left {s u : List Char} (h : List.Lex (· < ·) s u) :
    ∀ (a : List Char), List.Lex (· < ·) (a ++ s) (a ++ u) := by
  intro a
  induction a with
  | nil => simpa using h
  | cons x xs ih => exact List.Lex.cons ih

/-- Two-digit zero-padded fields sort like the numbers they encode. -/
theorem pad2_lt {a b : ℕ} (hb : b < 100) (h : a < b) :
    List.Lex (· < ·) (pad2 a) (pad2 b) := by
  rcases Nat.lt_trichotomy (a / 10) (b / 10) with h1 | h1 | h1
  · exact List.Lex.rel (digitChar_lt _ (by omega) _ (by omega) h1)
  · have h2 : a % 10 < b % 10 := by omega
    rw [pad2, pad2, h1]
    exact List.Lex.cons (List.Lex.rel (digitChar_lt _ (by omega) _ (by omega) h2))
  · omega

/-- Four-digit zero-padded fields sort like the numbers they encode. -/
theorem pad4_lt {a b : ℕ} (hb : b < 10000) (h : a < b) :
    List.Lex (· < ·) (pad4 a) (pad4 b) := by
  rcases Nat.lt_trichotomy (a / 100) (b / 100) with h1 | h1 | h1
  · exact lex_append_same_len (pad2_lt (by omega) h1) rfl _ _
  · have h2 : a % 100 < b % 100 := by omega
    rw [pad4, pad4, h1]
    exact lex_append_left (pad2_lt (by omega) h2) _
  · omega

/-- The hour-truncated label is monotone: an hour key no later than
another yields a label that is equal or lexicographically smaller. -/
theorem labelChars_le (t1 t2 : PyDateTime) (h1 : t1.Valid) (h2 : t2.Valid)
    (hk : hourKey t1 ≤ hourKey t2) :
    labelChars t1 = labelChars t2 ∨ List.Lex (· < ·) (labelChars t1) (labelChars t2) := by
  obtain ⟨hy1a, hy1b, hm1a, hm1b, hd1a, hd1b, hh1, -, -, -⟩ := h1
  obtain ⟨hy2a, hy2b, hm2a, hm2b, hd2a, hd2b, hh2, -, -, -⟩ := h2
  have hk2 : ((t1.year * 13 + t1.month) * 32 + t1.day) * 24 + t1.hour ≤
      ((t2.year * 13 + t2.month) * 32 + t2.day) * 24 + t2.hour := hk
  rcases Nat.lt_trichotomy t1.year t2.year with hy | hy | hy
  · right
    exact lex_append_same_len (pad4_lt (by omega) hy) rfl _ _
  · rcases Nat.lt_trichotomy t1.month t2.month with hm | hm | hm
    · right
      rw [labelChars, labelChars, hy]
      refine lex_append_left ?_ _
      exact List.Lex.cons (lex_append_same_len (pad2_lt (by omega) hm) rfl _ _)
    · rcases Nat.lt_trichotomy t1.day t2.day with hd | hd | hd
      · right
        rw [labelChars, labelChars, hy, hm]
        refine lex_append_left ?_ _
        refine List.Lex.cons ?_
        refine lex_append_left ?_ _
        exact List.Lex.cons (lex_append_same_len (pad2_lt (by omega) hd) rfl _ _)
      · rcases Nat.lt_trichotomy t1.hour t2.hour with hh | hh | hh
        · right
          rw [labelChars, labelChars, hy, hm, hd]
          refine lex_append_left ?_ _
          refine List.Lex.cons ?_
          refine lex_append_left ?_ _
          refine List.Lex.cons ?_
          refine lex_append_left ?_ _
          exact List.Lex.cons (pad2_lt (by omega) hh)
        · left
          rw [labelChars, labelChars, hy, hm, hd, hh]
        · omega
      · omega
    · omega
  · omega

/-- Claim C9: for timestamps `t1` chronologically no later than `t2`, the
hourly bucket label of `t1` is lexicographically no greater than that of
`t2`: the `%Y-%m-%d-%H` truncation is zero-padded and fixed-width, so its
string form sorts in calendar order. -/
theorem C9_hour_bucket_sorts_chronologically (t1 t2 : PyDateTime) (h1 : t1.Valid)
    (h2 : t2.Valid) (hle : dtKey t1 ≤ dtKey t2) :
    get_hour_bucket t1 ≤ get_hour_bucket t2 := by
  have hb1 := h1
  have hb2 := h2
  obtain ⟨-, -, -, -, -, -, -, hmin1, hs1, hu1⟩ := hb1
  obtain ⟨-, -, -, -, -, -, -, hmin2, hs2, hu2⟩ := hb2
  have hk : hourKey t1 ≤ hourKey t2 := by
    have hd : (((hourKey t1 * 60 + t1.minute) * 60 + t1.second) * 1000000 + t1.microsecond)
        ≤ (((hourKey t2 * 60 + t2.minute) * 60 + t2.second) * 1000000 + t2.microsecond) := hle
    omega
  rcases labelChars_le t1 t2 h1 h2 hk with heq | hlex
  · exact le_of_eq (congrArg String.mk heq)
  · apply le_of_lt
    show String.mk (labelChars t1) < String.mk (labelChars t2)
    rw [String.lt_iff_toList_lt]
    rw [show (String.mk (labelChars t1)).toList = labelChars t1 from rfl,
      show (String.mk (labelChars t2)).toList = labelChars t2 from rfl]
    exact hlex

/-- Witness for C9 at concrete timestamps. -/
theorem C9_hour_bucket_sorts_chronologically_witness :
    get_hour_bucket tA ≤ get_hour_bucket tB :=
  C9_hour_bucket_sorts_chronologically tA tB (by decide) (by decide) (by decide)
